import Mathlib

/-!
Shallow embedding of the Relevance Filtering, Sentiment Aggregation &
Recommendation Engine of the Real_Time-Stock-Analysis repository.

The embedded functions follow the two Python implementations:
  * `backend/app/services/sentiment_service.py`
    (`analyze_content_sentiment`, `calculate_final_sentiment_score`,
     `get_sentiment_suggestion`, `extract_validation_points`)
  * `sentiment_analyzer.py`
    (`analyze_sentiment_for_ticker`, `calculate_weighted_sentiment`,
     `get_suggestion`, `get_validation_points`)
  * `data_fetcher.py` / `backend/app/services/data_fetcher_service.py`
    (`is_article_relevant` / `_is_relevant`)

Modelling conventions:
  * Python floats are modelled by `ℚ` for item scores and timestamps
    (decidable, executable) and by `ℝ` for the transcendental weight
    arithmetic (`math.exp`, `math.log`).
  * Timestamps are UTC instants measured in hours.  A `publishedAt`
    field is `Option (Option ℚ)`: `none` models a missing/falsy value,
    `some none` a present but unparsable string (Python's
    `datetime.fromisoformat` raising, caught by the code), and
    `some (some t)` a string that parses to the UTC instant `t`.
    The ISO-8601 parsing itself is Python standard-library behaviour,
    abstracted by this three-way result.
  * Python dict fields that may be absent are `Option` fields; fields
    the repository's fetchers always populate with strings are plain
    `String`s.
-/

namespace StockSentiment

/-- A fetched content item, as produced by the data fetchers
(`data_fetcher.py`).  `full_text` is `none` when the dict key is absent
(the code falls back to the headline via
`item.get('full_text', item.get('headline'))`). -/
structure ContentItem where
  id : Option String
  headline : Option String
  full_text : Option String
  description : Option String
  url : Option String
  publishedAt : Option (Option ℚ)
  source_name : Option String
  source_type : Option String
deriving DecidableEq

/-- One entry of the external classifier's output list: a label string
and a confidence score (`result['label']`, `result['score']`). -/
structure SentimentResult where
  label : String
  score : ℚ
deriving DecidableEq

/-- An analyzed item as built by `analyze_content_sentiment` /
`analyze_sentiment_for_ticker`: the dict with keys `headline`, `url`,
`score`, `label`, `publishedAt`, `source_name`, `source_type`. -/
structure AnalyzedItem where
  headline : String
  url : Option String
  score : ℚ
  label : String
  publishedAt : Option (Option ℚ)
  source_name : String
  source_type : String
deriving DecidableEq

/-- Python truthiness of an optional string: `None` and `""` are falsy. -/
def truthy : Option String → Bool
  | none => false
  | some s => s ≠ ""

/-- The text chosen for classification:
`item.get('full_text', item.get('headline'))` — the `full_text` value
whenever that key is present, otherwise the headline. -/
def select_text (item : ContentItem) : Option String :=
  match item.full_text with
  | some t => some t
  | none => item.headline

/-- The first loop of `analyze_content_sentiment` /
`analyze_sentiment_for_ticker`: keep, in order, the items whose selected
text is truthy (`if text: ... else: skip`). -/
def selectUsable : List ContentItem → List ContentItem
  | [] => []
  | it :: rest =>
      if truthy (select_text it) then it :: selectUsable rest
      else selectUsable rest

/-- Normalisation of one classifier result
(`model_label = result['label'].lower()`; positive ↦ `+score`,
negative ↦ `-score`, anything else ↦ `0.0`). -/
def normalized_score (r : SentimentResult) : ℚ :=
  if r.label.toLower = "positive" then r.score
  else if r.label.toLower = "negative" then -r.score
  else 0

/-- The analyzed-item dict built for one (original item, result) pair in
the second loop of `analyze_content_sentiment`. -/
def mkAnalyzedItem (item : ContentItem) (r : SentimentResult) : AnalyzedItem :=
  { headline := item.headline.getD "N/A"
    url := item.url
    score := normalized_score r
    label := r.label.toLower
    publishedAt := item.publishedAt
    source_name := item.source_name.getD "Unknown"
    source_type := item.source_type.getD "unknown" }

/-- `analyze_content_sentiment`, with the external classifier's batched
output passed as the parallel list `results` (the code calls the loaded
pipeline on the selected texts and receives one result per text).
Guards in source order: empty input returns `[]`; no usable text returns
`[]`; if the classifier returns more results than there are usable items
the loop raises `IndexError`, which the surrounding `except` turns into
`[]`. -/
def analyze_content_sentiment (content : List ContentItem)
    (results : List SentimentResult) : List AnalyzedItem :=
  if content = [] then []
  else if selectUsable content = [] then []
  else if (selectUsable content).length < results.length then []
  else List.zipWith (fun r it => mkAnalyzedItem it r) results (selectUsable content)

/-- Modelled from the spec: the Text Selector priority chain claimed in
§4.2 — "full body text if present and at least as long as the title;
else short description; else title; else null".  Stated only to be
compared against the source's `select_text`. -/
def select_text_spec (item : ContentItem) : Option String :=
  match item.full_text with
  | some t =>
      if (item.headline.getD "").length ≤ t.length then some t
      else match item.description with
        | some d => some d
        | none => item.headline
  | none =>
      match item.description with
      | some d => some d
      | none => item.headline

/-- `get_sentiment_suggestion` (backend) = `get_suggestion` (streamlit):
the fixed threshold chain mapping a score to a label. -/
def get_suggestion (score : ℚ) : String :=
  if 0.25 < score then "Strong Buy"
  else if 0.05 < score then "Buy"
  else if -0.05 ≤ score then "Hold"
  else if -0.25 ≤ score then "Sell"
  else "Strong Sell"

/-- `get_sentiment_suggestion` from the backend service; its body is the
same threshold chain as `get_suggestion`. -/
def get_sentiment_suggestion (score : ℚ) : String :=
  if 0.25 < score then "Strong Buy"
  else if 0.05 < score then "Buy"
  else if -0.05 ≤ score then "Hold"
  else if -0.25 ≤ score then "Sell"
  else "Strong Sell"

/-- Bullishness rank of a label, used to state monotonicity of the
classifier (Strong Sell = 0 … Strong Buy = 4). -/
def suggestionRank (label : String) : ℕ :=
  if label = "Strong Sell" then 0
  else if label = "Sell" then 1
  else if label = "Hold" then 2
  else if label = "Buy" then 3
  else 4

/-- Recency weight of one item
(`calculate_final_sentiment_score` / `calculate_weighted_sentiment`):
starts at the default `0.1`; when `publishedAt` is present and parses to
the UTC instant `t`, it becomes
`exp(-ln 2 * age_hours / half_life_hours)` with
`age_hours = max 0 (now - t)`; a missing value or a parse failure keeps
the default. -/
noncomputable def recencyWeight (now halfLife : ℚ) :
    Option (Option ℚ) → ℝ
  | some (some t) =>
      Real.exp (-(Real.log 2) * (↑(max 0 (now - t)) : ℝ) / (halfLife : ℝ))
  | some none => 0.1
  | none => 0.1

/-- Intensity weight of one item:
`1.0 + abs(score) * intensity_boost_factor`. -/
def intensityWeight (boost score : ℚ) : ℚ :=
  1 + |score| * boost

/-- Combined per-item weight:
`item_weight = recency_weight * intensity_weight`. -/
noncomputable def itemWeight (now halfLife boost : ℚ) (item : AnalyzedItem) : ℝ :=
  recencyWeight now halfLife item.publishedAt * (intensityWeight boost item.score : ℝ)

/-- Running total `total_weight` accumulated by the aggregation loop. -/
noncomputable def totalWeight (now halfLife boost : ℚ) (items : List AnalyzedItem) : ℝ :=
  (items.map (fun it => itemWeight now halfLife boost it)).sum

/-- Running total `total_weighted_score` accumulated by the aggregation
loop (`score * item_weight` summed over the items). -/
noncomputable def totalWeightedScore (now halfLife boost : ℚ)
    (items : List AnalyzedItem) : ℝ :=
  (items.map (fun it => (it.score : ℝ) * itemWeight now halfLife boost it)).sum

/-- `calculate_final_sentiment_score` from the backend service.  The
`now` argument models the value of `datetime.now(timezone.utc)` read
inside the function body (it is not a parameter of the Python
function).  Empty input returns `0.0`; zero total weight returns `0.0`;
otherwise the weighted mean. -/
noncomputable def calculate_final_sentiment_score (now halfLife boost : ℚ)
    (items : List AnalyzedItem) : ℝ :=
  if items = [] then 0
  else if totalWeight now halfLife boost items = 0 then 0
  else totalWeightedScore now halfLife boost items / totalWeight now halfLife boost items

/-- `calculate_weighted_sentiment` from `sentiment_analyzer.py`.  Same
loop, but on zero total weight with a non-empty list it falls back to
the unweighted arithmetic mean of the raw scores.  As in the backend
version, `now` models the `datetime.now(timezone.utc)` value read inside
the function. -/
noncomputable def calculate_weighted_sentiment (now halfLife boost : ℚ)
    (items : List AnalyzedItem) : ℝ :=
  if items = [] then 0
  else if totalWeight now halfLife boost items = 0 then
    ((items.map (fun it => (it.score : ℝ))).sum) / (items.length : ℝ)
  else totalWeightedScore now halfLife boost items / totalWeight now halfLife boost items

/-- The accumulate-then-divide core of `calculate_final_sentiment_score`
factored over explicit (score, weight) pairs: `total_weighted_score` and
`total_weight` are the two running sums, and `if total_weight == 0:
return 0.0` guards the division. -/
noncomputable def aggregate_pairs_backend (pairs : List (ℚ × ℝ)) : ℝ :=
  if pairs = [] then 0
  else if (pairs.map Prod.snd).sum = 0 then 0
  else (pairs.map (fun p => (p.1 : ℝ) * p.2)).sum / (pairs.map Prod.snd).sum

/-- The accumulate-then-divide core of `calculate_weighted_sentiment`
factored over explicit (score, weight) pairs; on zero total weight with
a non-empty list it returns `sum(item['score'] ...) / len(...)`. -/
noncomputable def aggregate_pairs_streamlit (pairs : List (ℚ × ℝ)) : ℝ :=
  if pairs = [] then 0
  else if (pairs.map Prod.snd).sum = 0 then
    (pairs.map (fun p => (p.1 : ℝ))).sum / (pairs.length : ℝ)
  else (pairs.map (fun p => (p.1 : ℝ) * p.2)).sum / (pairs.map Prod.snd).sum

/-- A justification point dict built by `extract_validation_points`
(keys `type`, `headline`, `url`, `source`, `score`). -/
structure JustificationPoint where
  kind : String
  headline : String
  url : Option String
  source : String
  score : ℚ
deriving DecidableEq

/-- Build one justification point of the given type from an item. -/
def mkPoint (kind : String) (it : AnalyzedItem) : JustificationPoint :=
  { kind := kind, headline := it.headline, url := it.url
    source := it.source_name, score := it.score }

/-- Stable insertion step for descending score order: an earlier element
goes before a later one whose score is not larger. -/
def insertScoreDesc (a : AnalyzedItem) : List AnalyzedItem → List AnalyzedItem
  | [] => [a]
  | b :: bs => if b.score ≤ a.score then a :: b :: bs else b :: insertScoreDesc a bs

/-- Stable sort by score descending, modelling Python's
`sorted(..., key=lambda x: x['score'], reverse=True)`. -/
def sortScoreDesc : List AnalyzedItem → List AnalyzedItem
  | [] => []
  | a :: rest => insertScoreDesc a (sortScoreDesc rest)

/-- Python's `min(items, key=lambda x: abs(x['score']), default=None)`:
the first element of smallest absolute score, `none` on the empty
list. -/
def minByAbsScore : List AnalyzedItem → Option AnalyzedItem
  | [] => none
  | a :: rest =>
      match minByAbsScore rest with
      | none => some a
      | some b => if |b.score| < |a.score| then some b else some a

/-- `extract_validation_points` from the backend service.  On empty
input it returns `[]`.  Otherwise: a positive point from the top of the
descending sort when its score exceeds `0.1`; a negative point from the
bottom when its score is below `-0.1`; when fewer than two points were
produced, a neutral point from the item closest to zero.  The source
guards that neutral point with `closest_neutral not in [p.get('headline')
for p in points ...]`, which compares the item dict against a list of
headline strings and therefore never rejects; the guard is constantly
true and is embedded as such. -/
def extract_validation_points (analyzed : List AnalyzedItem) :
    List JustificationPoint :=
  if analyzed = [] then []
  else
    let sorted := sortScoreDesc analyzed
    let pointsPos :=
      match sorted.head? with
      | some top => if (1/10 : ℚ) < top.score then [mkPoint "positive" top] else []
      | none => []
    let pointsNeg :=
      match sorted.getLast? with
      | some bot =>
          if bot.score < -(1/10 : ℚ) then pointsPos ++ [mkPoint "negative" bot]
          else pointsPos
      | none => pointsPos
    let pointsAll :=
      if pointsNeg.length < 2 then
        match minByAbsScore analyzed with
        | some cn => pointsNeg ++ [mkPoint "neutral" cn]
        | none => pointsNeg
      else pointsNeg
    pointsAll.take 3

/-- One entry of the list returned by the streamlit
`get_validation_points`: either the synthetic no-data message, a
formatted point (its rendered markdown abstracted to its content), or
the balanced-sentiment message. -/
inductive StreamlitPoint where
  | noData : StreamlitPoint
  | item (kind : String) (source headline : String) (url : Option String)
      (score : ℚ) : StreamlitPoint
  | balanced : StreamlitPoint
deriving DecidableEq

/-- Build one streamlit point of the given kind from an item. -/
def mkSPoint (kind : String) (it : AnalyzedItem) : StreamlitPoint :=
  StreamlitPoint.item kind it.source_name it.headline it.url it.score

/-- `get_validation_points` from `sentiment_analyzer.py`.  On empty
input: the single synthetic no-data message.  Otherwise positive and
negative points as in the backend version, then the two fallback
branches of the source (a neutral pick when no point exists yet, and a
final neutral/balanced fallback). -/
def get_validation_points (analyzed : List AnalyzedItem) :
    List StreamlitPoint :=
  if analyzed = [] then [StreamlitPoint.noData]
  else
    let sorted := sortScoreDesc analyzed
    let pointsPos :=
      match sorted.head? with
      | some top => if (1/10 : ℚ) < top.score then [mkSPoint "positive" top] else []
      | none => []
    let pointsNeg :=
      match sorted.getLast? with
      | some bot =>
          if bot.score < -(1/10 : ℚ) then pointsPos ++ [mkSPoint "negative" bot]
          else pointsPos
      | none => pointsPos
    let pointsMid :=
      if pointsNeg.length < 2 ∧ (if pointsNeg = [] then 0 else 1) < sorted.length then
        if pointsNeg = [] then
          match
            (if sorted.any (fun x => decide (|x.score| < 1/20)) then minByAbsScore sorted
             else sorted.head?) with
          | some it => pointsNeg ++ [mkSPoint "neutral" it]
          | none => pointsNeg
        else pointsNeg
      else pointsNeg
    let pointsAll :=
      if pointsMid = [] then
        match minByAbsScore analyzed with
        | some cn => pointsMid ++ [mkSPoint "neutral" cn]
        | none => pointsMid ++ [StreamlitPoint.balanced]
      else pointsMid
    pointsAll.take 3

/-- Python regex word characters (ASCII view): alphanumerics and the
underscore. -/
def isWordChar (c : Char) : Bool := c.isAlphanum || c = '_'

/-- Wordness of a character position; out-of-text counts as non-word. -/
def wordness : Option Char → Bool
  | none => false
  | some c => isWordChar c

/-- A regex word boundary between adjacent positions holds when exactly
one side is a word character. -/
def isBoundary (a b : Option Char) : Bool := wordness a != wordness b

/-- Case-insensitive literal match of `pat` at the head of `text`
(re.IGNORECASE); returns the last matched text character (or the
preceding one when `pat` is empty) and the remaining text. -/
def matchCI (prev : Option Char) :
    List Char → List Char → Option (Option Char × List Char)
  | [], rest => some (prev, rest)
  | _ :: _, [] => none
  | p :: ps, t :: ts =>
      if p.toLower = t.toLower then matchCI (some t) ps ts else none

/-- Attempt of the alternative `\bP\b` at the current position, where
`prev` is the preceding text character. -/
def tryWordMatch (pat : List Char) (prev : Option Char) (text : List Char) :
    Option (Option Char × List Char) :=
  if isBoundary prev text.head? then
    match matchCI prev pat text with
    | some (last, rest) =>
        if isBoundary last rest.head? then some (last, rest) else none
    | none => none
  else none

/-- Attempt of the alternative `\$P\b` at the current position. -/
def tryCashtagMatch (pat : List Char) (text : List Char) :
    Option (Option Char × List Char) :=
  match text with
  | '$' :: ts =>
      match matchCI (some '$') pat ts with
      | some (last, rest) =>
          if isBoundary last rest.head? then some (last, rest) else none
      | none => none
  | _ => none

/-- One attempt of the alternation `\bP\b|\$P\b` (the cashtag
alternative only for the ticker pattern), first alternative first, as
Python's regex engine does. -/
def tryMatch (pat : List Char) (cashtag : Bool) (prev : Option Char)
    (text : List Char) : Option (Option Char × List Char) :=
  match tryWordMatch pat prev text with
  | some r => some r
  | none => if cashtag then tryCashtagMatch pat text else none

/-- Left-to-right, non-overlapping scan counting regex matches as
`re.findall` does; the scan resumes after each match.  `fuel` is only a
structural-termination device — `text.length` always suffices since
every step consumes at least one character. -/
def scanCount (pat : List Char) (cashtag : Bool) :
    ℕ → Option Char → List Char → ℕ
  | 0, _, _ => 0
  | fuel + 1, prev, text =>
      match text with
      | [] => 0
      | c :: rest =>
          match tryMatch pat cashtag prev (c :: rest) with
          | some (last, remaining) =>
              if remaining.length < (c :: rest).length then
                1 + scanCount pat cashtag fuel last remaining
              else 1 + scanCount pat cashtag fuel (some c) rest
          | none => scanCount pat cashtag fuel (some c) rest

/-- Matches of `\bT\b|\$T\b` (IGNORECASE) in `text`, as counted by
`len(re.findall(ticker_pattern, text_content, re.IGNORECASE))`. -/
def countTickerMentions (text ticker : String) : ℕ :=
  scanCount ticker.toList true text.length none text.toList

/-- Matches of `\bC\b` (IGNORECASE) in `text`, as counted for the
company-name pattern. -/
def countNameMentions (text name : String) : ℕ :=
  scanCount name.toList false text.length none text.toList

/-- The summed mention count of `is_article_relevant`: ticker matches,
plus company-name matches when the name is truthy and longer than two
characters (`if company_name and len(company_name) > 2`). -/
def mentionCount (text ticker company : String) : ℕ :=
  countTickerMentions text ticker +
    (if company ≠ "" ∧ 2 < company.length then countNameMentions text company else 0)

/-- `is_article_relevant` (`data_fetcher.py`) = `_is_relevant` (backend
service): false on absent, empty or too-short text
(`if not text_content or len(text_content) < min_len`), otherwise true
iff the mention count reaches the minimum-mentions threshold. -/
def is_article_relevant (text : Option String) (ticker company : String)
    (minLen minMentions : ℕ) : Bool :=
  match text with
  | none => false
  | some t =>
      if t = "" ∨ t.length < minLen then false
      else decide (minMentions ≤ mentionCount t ticker company)

/-- `MIN_ARTICLE_LENGTH_FOR_ANALYSIS` from `config.py`. -/
def MIN_ARTICLE_LENGTH_FOR_ANALYSIS : ℕ := 200

/-- `MIN_TICKER_MENTIONS_FOR_RELEVANCE` from `config.py`. -/
def MIN_TICKER_MENTIONS_FOR_RELEVANCE : ℕ := 2

/-- `RECENCY_DECAY_HALF_LIFE_HOURS` from `config.py` (streamlit app). -/
def RECENCY_DECAY_HALF_LIFE_HOURS : ℚ := 24

/-- `INTENSITY_BOOST_FACTOR` from `config.py` (streamlit app). -/
def INTENSITY_BOOST_FACTOR : ℚ := 0.2

/-- A concrete analyzed item, used to instantiate theorems on explicit
inputs. -/
def sampleItem (s : ℚ) (pub : Option (Option ℚ)) : AnalyzedItem :=
  { headline := "H", url := some "u", score := s, label := "positive",
    publishedAt := pub, source_name := "src", source_type := "news" }

/-- A concrete content item, used to instantiate theorems on explicit
inputs. -/
def sampleContent (ft hd ds : Option String) : ContentItem :=
  { id := none, headline := hd, full_text := ft, description := ds,
    url := none, publishedAt := none, source_name := none, source_type := none }

/-- Content item whose full text is present but shorter than its title,
with a description available. -/
def shortBodyItem : ContentItem :=
  sampleContent (some "bad") (some "A very long headline") (some "short desc")

/-- Content batch with one usable full text, one empty full text and one
title-only item. -/
def sampleBatch : List ContentItem :=
  [sampleContent (some "text one") (some "T1") none,
   sampleContent (some "") (some "T2") none,
   sampleContent none (some "T3") none]

/-- Classifier results parallel to the usable items of `sampleBatch`. -/
def sampleResults : List SentimentResult :=
  [{ label := "POSITIVE", score := 9/10 }, { label := "negative", score := 4/5 }]

/-- The usable-item loop keeps exactly the items whose selected text is
truthy, in input order. -/
theorem selectUsable_eq_filter (content : List ContentItem) :
    selectUsable content = content.filter (fun it => truthy (select_text it)) := by
  induction content with
  | nil => rfl
  | cons it rest ih =>
      by_cases h : truthy (select_text it) <;>
        simp [selectUsable, List.filter_cons, h, ih]

/-- The intensity weight is positive whenever the boost factor is
nonnegative. -/
theorem intensityWeight_pos (boost s : ℚ) (hb : 0 ≤ boost) :
    0 < intensityWeight boost s := by
  have h : 0 ≤ |s| * boost := mul_nonneg (abs_nonneg s) hb
  unfold intensityWeight
  linarith

/-- The recency weight is positive in every branch: the exponential is
positive, and the missing/unparsable default is the positive constant
`0.1`. -/
theorem recencyWeight_pos (now halfLife : ℚ) (pub : Option (Option ℚ)) :
    0 < recencyWeight now halfLife pub := by
  match pub with
  | some (some t) => exact Real.exp_pos _
  | some none => norm_num [recencyWeight]
  | none => norm_num [recencyWeight]

/-- Every combined item weight is strictly positive when the boost
factor is nonnegative. -/
theorem itemWeight_pos (now halfLife boost : ℚ) (item : AnalyzedItem)
    (hb : 0 ≤ boost) : 0 < itemWeight now halfLife boost item := by
  unfold itemWeight
  have h1 := recencyWeight_pos now halfLife item.publishedAt
  have h2 : (0 : ℝ) < (intensityWeight boost item.score : ℝ) := by
    exact_mod_cast intensityWeight_pos boost item.score hb
  exact mul_pos h1 h2

/-- The accumulated total weight is nonnegative. -/
theorem totalWeight_nonneg (now halfLife boost : ℚ) (items : List AnalyzedItem)
    (hb : 0 ≤ boost) : 0 ≤ totalWeight now halfLife boost items := by
  induction items with
  | nil => simp [totalWeight]
  | cons a rest ih =>
      have ha := itemWeight_pos now halfLife boost a hb
      simp only [totalWeight, List.map_cons, List.sum_cons] at ih ⊢
      linarith

/-- The accumulated total weight is strictly positive on a non-empty
list. -/
theorem totalWeight_pos (now halfLife boost : ℚ) (items : List AnalyzedItem)
    (hb : 0 ≤ boost) (hne : items ≠ []) :
    0 < totalWeight now halfLife boost items := by
  match items with
  | [] => exact absurd rfl hne
  | a :: rest =>
      have ha := itemWeight_pos now halfLife boost a hb
      have hr := totalWeight_nonneg now halfLife boost rest hb
      simp only [totalWeight, List.map_cons, List.sum_cons] at hr ⊢
      linarith

/-- When every score is bounded by one in absolute value, the weighted
score sum is dominated by the weight sum. -/
theorem abs_totalWeightedScore_le (now halfLife boost : ℚ)
    (items : List AnalyzedItem) (hb : 0 ≤ boost)
    (hs : ∀ it ∈ items, |it.score| ≤ 1) :
    |totalWeightedScore now halfLife boost items| ≤
      totalWeight now halfLife boost items := by
  induction items with
  | nil => simp [totalWeightedScore, totalWeight]
  | cons a rest ih =>
      have ha : |(a.score : ℝ)| ≤ 1 := by
        exact_mod_cast hs a (by simp)
      have hrest := ih (fun it hit => hs it (by simp [hit]))
      have hw := itemWeight_pos now halfLife boost a hb
      simp only [totalWeightedScore, totalWeight, List.map_cons, List.sum_cons] at hrest ⊢
      set w := itemWeight now halfLife boost a with hwdef
      set S := (rest.map (fun it => (it.score : ℝ) * itemWeight now halfLife boost it)).sum
      set W := (rest.map (fun it => itemWeight now halfLife boost it)).sum
      calc |(a.score : ℝ) * w + S| ≤ |(a.score : ℝ) * w| + |S| := abs_add _ _
        _ = |(a.score : ℝ)| * w + |S| := by
              rw [abs_mul, abs_of_pos hw]
        _ ≤ 1 * w + W := by
              have h1 : |(a.score : ℝ)| * w ≤ 1 * w :=
                mul_le_mul_of_nonneg_right ha (le_of_lt hw)
              linarith
        _ = w + W := by ring

/-- C1: for every non-empty list of analyzed items whose per-item scores
all lie in [-1, 1], the weighted aggregation
(`calculate_final_sentiment_score` / `calculate_weighted_sentiment`)
returns a value in [-1, 1], and for the empty list both functions return
exactly 0.0. -/
theorem C1_aggregate_bounded (now halfLife boost : ℚ)
    (items : List AnalyzedItem) (hb : 0 ≤ boost)
    (hs : ∀ it ∈ items, |it.score| ≤ 1) :
    (items ≠ [] →
        |calculate_final_sentiment_score now halfLife boost items| ≤ 1 ∧
        |calculate_weighted_sentiment now halfLife boost items| ≤ 1) ∧
    calculate_final_sentiment_score now halfLife boost [] = 0 ∧
    calculate_weighted_sentiment now halfLife boost [] = 0 := by
  refine ⟨?_, by simp [calculate_final_sentiment_score],
    by simp [calculate_weighted_sentiment]⟩
  intro hne
  have hW := totalWeight_pos now halfLife boost items hb hne
  have hS := abs_totalWeightedScore_le now halfLife boost items hb hs
  have hdiv : |totalWeightedScore now halfLife boost items /
      totalWeight now halfLife boost items| ≤ 1 := by
    rw [abs_div, abs_of_pos hW]
    exact (div_le_one hW).mpr hS
  constructor
  · unfold calculate_final_sentiment_score
    rw [if_neg hne, if_neg (ne_of_gt hW)]
    exact hdiv
  · unfold calculate_weighted_sentiment
    rw [if_neg hne, if_neg (ne_of_gt hW)]
    exact hdiv

/-- Concrete instance of C1 at an explicit two-item list. -/
theorem C1_aggregate_bounded_witness :
    (([sampleItem (1/2) (some (some 0)), sampleItem (-1) none] :
        List AnalyzedItem) ≠ [] →
        |calculate_final_sentiment_score 0 72 (3/20)
            [sampleItem (1/2) (some (some 0)), sampleItem (-1) none]| ≤ 1 ∧
        |calculate_weighted_sentiment 0 72 (3/20)
            [sampleItem (1/2) (some (some 0)), sampleItem (-1) none]| ≤ 1) ∧
    calculate_final_sentiment_score 0 72 (3/20) [] = 0 ∧
    calculate_weighted_sentiment 0 72 (3/20) [] = 0 :=
  C1_aggregate_bounded 0 72 (3/20) _ (by norm_num)
    (by intro it hit; fin_cases hit <;> norm_num [sampleItem, abs_le])

/-- C2: the per-item weight equals
exp(-ln 2 · age_hours / half_life_hours) · (1 + |score| · boost) with
age_hours = max 0 (now − t) when the publication timestamp parses to t;
the recency factor is the constant 0.1 when the timestamp is missing or
unparsable; and the combined weight is strictly positive in all
cases. -/
theorem C2_item_weight (now halfLife boost : ℚ) (item : AnalyzedItem)
    (hb : 0 ≤ boost) :
    (∀ t : ℚ, item.publishedAt = some (some t) →
        itemWeight now halfLife boost item =
          Real.exp (-(Real.log 2) * ((max 0 (now - t) : ℚ) : ℝ) / (halfLife : ℝ)) *
            (1 + |(item.score : ℝ)| * (boost : ℝ))) ∧
    ((item.publishedAt = none ∨ item.publishedAt = some none) →
        itemWeight now halfLife boost item =
          0.1 * (1 + |(item.score : ℝ)| * (boost : ℝ))) ∧
    0 < itemWeight now halfLife boost item := by
  refine ⟨?_, ?_, itemWeight_pos now halfLife boost item hb⟩
  · intro t ht
    unfold itemWeight intensityWeight
    rw [ht]
    simp only [recencyWeight]
    push_cast
    ring
  · intro hmiss
    unfold itemWeight intensityWeight
    rcases hmiss with hm | hm <;> rw [hm] <;> simp only [recencyWeight] <;>
      push_cast <;> ring

/-- Concrete instance of C2 at an explicit item with a parsed
timestamp. -/
theorem C2_item_weight_witness :
    itemWeight 5 72 (3/20) (sampleItem (1/2) (some (some 3))) =
      Real.exp (-(Real.log 2) * ((max 0 ((5 : ℚ) - 3) : ℚ) : ℝ) / ((72 : ℚ) : ℝ)) *
        (1 + |((sampleItem (1/2) (some (some 3))).score : ℝ)| * ((3/20 : ℚ) : ℝ)) ∧
    0 < itemWeight 5 72 (3/20) (sampleItem (1/2) (some (some 3))) :=
  ⟨(C2_item_weight 5 72 (3/20) _ (by norm_num)).1 3 rfl,
   (C2_item_weight 5 72 (3/20) _ (by norm_num)).2.2⟩

/-- C3: the recommendation classifier is total over the scores, realises
the partition score > 0.25 → Strong Buy, > 0.05 → Buy, ≥ -0.05 → Hold,
≥ -0.25 → Sell, else Strong Sell (so it maps 0 to Hold), agrees between
its two copies, and is monotone in bullishness. -/
theorem C3_classifier (s s₁ s₂ : ℚ) (h : s₁ ≤ s₂) :
    get_sentiment_suggestion s = get_suggestion s ∧
    (get_suggestion s = "Strong Buy" ↔ 0.25 < s) ∧
    (get_suggestion s = "Buy" ↔ 0.05 < s ∧ s ≤ 0.25) ∧
    (get_suggestion s = "Hold" ↔ -0.05 ≤ s ∧ s ≤ 0.05) ∧
    (get_suggestion s = "Sell" ↔ -0.25 ≤ s ∧ s < -0.05) ∧
    (get_suggestion s = "Strong Sell" ↔ s < -0.25) ∧
    get_suggestion 0 = "Hold" ∧
    suggestionRank (get_suggestion s₁) ≤ suggestionRank (get_suggestion s₂) := by
  refine ⟨rfl, ?_, ?_, ?_, ?_, ?_, by norm_num [get_suggestion], ?_⟩
  · unfold get_suggestion
    split_ifs with h1 h2 h3 h4 <;> simp_all <;>
      first
        | linarith
        | (intro hx; linarith)
        | (constructor <;> linarith)
        | (rintro ⟨hx, hy⟩; linarith)
  · unfold get_suggestion
    split_ifs with h1 h2 h3 h4 <;> simp_all <;>
      first
        | linarith
        | (intro hx; linarith)
        | (constructor <;> linarith)
        | (rintro ⟨hx, hy⟩; linarith)
  · unfold get_suggestion
    split_ifs with h1 h2 h3 h4 <;> simp_all <;>
      first
        | linarith
        | (intro hx; linarith)
        | (constructor <;> linarith)
        | (rintro ⟨hx, hy⟩; linarith)
  · unfold get_suggestion
    split_ifs with h1 h2 h3 h4 <;> simp_all <;>
      first
        | linarith
        | (intro hx; linarith)
        | (constructor <;> linarith)
        | (rintro ⟨hx, hy⟩; linarith)
  · unfold get_suggestion
    split_ifs with h1 h2 h3 h4 <;> simp_all <;>
      first
        | linarith
        | (intro hx; linarith)
        | (constructor <;> linarith)
        | (rintro ⟨hx, hy⟩; linarith)
  · unfold get_suggestion
    split_ifs with a1 a2 a3 a4 b1 b2 b3 b4 <;>
      first | linarith | decide | (simp only [suggestionRank, if_pos, if_neg]; omega)

/-- Concrete instance of C3 at explicit scores. -/
theorem C3_classifier_witness :
    get_sentiment_suggestion (3/10) = get_suggestion (3/10) ∧
    (get_suggestion (3/10) = "Strong Buy" ↔ (0.25 : ℚ) < 3/10) ∧
    (get_suggestion (3/10) = "Buy" ↔ (0.05 : ℚ) < 3/10 ∧ (3/10 : ℚ) ≤ 0.25) ∧
    (get_suggestion (3/10) = "Hold" ↔ (-0.05 : ℚ) ≤ 3/10 ∧ (3/10 : ℚ) ≤ 0.05) ∧
    (get_suggestion (3/10) = "Sell" ↔ (-0.25 : ℚ) ≤ 3/10 ∧ (3/10 : ℚ) < -0.05) ∧
    (get_suggestion (3/10) = "Strong Sell" ↔ (3/10 : ℚ) < -0.25) ∧
    get_suggestion 0 = "Hold" ∧
    suggestionRank (get_suggestion (-1)) ≤ suggestionRank (get_suggestion 1) :=
  C3_classifier (3/10) (-1) 1 (by norm_num)

/-- C4 counterexample: on an item whose full text is present but
shorter than its title, with a description available, the code selects
the full text while the claimed priority chain selects the
description. -/
theorem C4_counterexample :
    select_text shortBodyItem = some "bad" ∧
    select_text_spec shortBodyItem = some "short desc" ∧
    select_text shortBodyItem ≠ select_text_spec shortBodyItem := by
  refine ⟨rfl, ?_, ?_⟩ <;>
    simp [select_text, select_text_spec, shortBodyItem, sampleContent] <;> decide

/-- C4 (amended): the chosen text is the full-text field whenever that
key is present — with no comparison against the title's length and no
description fallback — and otherwise the title; an item whose chosen
text is missing or empty is skipped by the usable-item filter. -/
theorem C4_text_selection (item : ContentItem) (content : List ContentItem) :
    (∀ t, item.full_text = some t → select_text item = some t) ∧
    (item.full_text = none → select_text item = item.headline) ∧
    selectUsable content = content.filter (fun it => truthy (select_text it)) := by
  refine ⟨?_, ?_, selectUsable_eq_filter content⟩
  · intro t ht
    simp [select_text, ht]
  · intro ht
    simp [select_text, ht]

/-- Concrete instance of C4 (amended). -/
theorem C4_text_selection_witness :
    select_text (sampleContent (some "body text") (some "T") none) = some "body text" ∧
    selectUsable [sampleContent (some "body text") (some "T") none] =
      List.filter (fun it => truthy (select_text it))
        [sampleContent (some "body text") (some "T") none] :=
  ⟨(C4_text_selection (sampleContent (some "body text") (some "T") none) []).1 _ rfl,
   (C4_text_selection (sampleContent (some "body text") (some "T") none)
      [sampleContent (some "body text") (some "T") none]).2.2⟩

/-- C5 counterexample: on the empty list the backend selector
`extract_validation_points` returns the empty list, not a list with
exactly one synthetic neutral point. -/
theorem C5_counterexample :
    extract_validation_points [] = [] ∧
    (extract_validation_points []).length ≠ 1 := by
  constructor <;> simp [extract_validation_points]

/-- C5 (amended): on empty input the streamlit `get_validation_points`
returns exactly the single synthetic no-data point, while the backend
`extract_validation_points` returns the empty list. -/
theorem C5_empty_input :
    get_validation_points [] = [StreamlitPoint.noData] ∧
    extract_validation_points [] = [] := by
  constructor <;> rfl

/-- C6 counterexample: with a single (score, weight) pair of weight
zero, the backend aggregation core returns 0.0, not the unweighted mean
0.5 of the raw scores. -/
theorem C6_counterexample :
    aggregate_pairs_backend [((1 : ℚ)/2, (0 : ℝ))] = 0 ∧
    ([((1 : ℚ)/2, (0 : ℝ))].map (fun p => (p.1 : ℝ))).sum /
        (([((1 : ℚ)/2, (0 : ℝ))].length : ℕ) : ℝ) = 1/2 ∧
    (0 : ℝ) ≠ 1/2 := by
  refine ⟨?_, ?_, by norm_num⟩
  · simp [aggregate_pairs_backend]
  · norm_num

/-- C6 (amended): on zero total weight over a non-empty pair list, the
streamlit aggregation core falls back to the unweighted mean while the
backend core returns 0.0; both item-level aggregators equal their pair
core applied to the computed (score, weight) pairs; and on actual items
the degenerate case is unreachable, the total weight being strictly
positive. -/
theorem C6_zero_weight_fallback (pairs : List (ℚ × ℝ)) (hne : pairs ≠ [])
    (hw : (pairs.map Prod.snd).sum = 0) (now halfLife boost : ℚ)
    (items : List AnalyzedItem) (hb : 0 ≤ boost) (hne2 : items ≠ []) :
    aggregate_pairs_streamlit pairs =
      (pairs.map (fun p => (p.1 : ℝ))).sum / (pairs.length : ℝ) ∧
    aggregate_pairs_backend pairs = 0 ∧
    calculate_weighted_sentiment now halfLife boost items =
      aggregate_pairs_streamlit
        (items.map (fun it => (it.score, itemWeight now halfLife boost it))) ∧
    calculate_final_sentiment_score now halfLife boost items =
      aggregate_pairs_backend
        (items.map (fun it => (it.score, itemWeight now halfLife boost it))) ∧
    0 < totalWeight now halfLife boost items := by
  have hmapne : items.map (fun it => (it.score, itemWeight now halfLife boost it)) ≠ [] := by
    simpa using hne2
  have h1 : ((items.map (fun it => (it.score, itemWeight now halfLife boost it))).map
      Prod.snd) = items.map (fun it => itemWeight now halfLife boost it) := by
    simp [List.map_map, Function.comp_def]
  have h2 : ((items.map (fun it => (it.score, itemWeight now halfLife boost it))).map
      (fun p => ((p.1 : ℚ) : ℝ))) = items.map (fun it => ((it.score : ℚ) : ℝ)) := by
    simp [List.map_map, Function.comp_def]
  have h3 : ((items.map (fun it => (it.score, itemWeight now halfLife boost it))).map
      (fun p => ((p.1 : ℚ) : ℝ) * p.2)) =
      items.map (fun it => ((it.score : ℚ) : ℝ) * itemWeight now halfLife boost it) := by
    simp [List.map_map, Function.comp_def]
  refine ⟨?_, ?_, ?_, ?_, totalWeight_pos now halfLife boost items hb hne2⟩
  · unfold aggregate_pairs_streamlit
    rw [if_neg hne, if_pos hw]
  · unfold aggregate_pairs_backend
    rw [if_neg hne, if_pos hw]
  · unfold calculate_weighted_sentiment aggregate_pairs_streamlit
      totalWeight totalWeightedScore
    rw [if_neg hne2, if_neg hmapne, h1, h3, h2, List.length_map]
  · unfold calculate_final_sentiment_score aggregate_pairs_backend
      totalWeight totalWeightedScore
    rw [if_neg hne2, if_neg hmapne, h1, h3]

/-- Concrete instance of C6 (amended). -/
theorem C6_zero_weight_fallback_witness :
    aggregate_pairs_streamlit [((1 : ℚ)/2, (0 : ℝ))] =
      ([((1 : ℚ)/2, (0 : ℝ))].map (fun p => (p.1 : ℝ))).sum /
        (([((1 : ℚ)/2, (0 : ℝ))].length : ℕ) : ℝ) ∧
    0 < totalWeight 0 72 (3/20) [sampleItem 1 none] :=
  ⟨(C6_zero_weight_fallback [((1 : ℚ)/2, (0 : ℝ))] (by simp) (by simp) 0 72 (3/20)
      [sampleItem 1 none] (by norm_num) (by simp)).1,
   (C6_zero_weight_fallback [((1 : ℚ)/2, (0 : ℝ))] (by simp) (by simp) 0 72 (3/20)
      [sampleItem 1 none] (by norm_num) (by simp)).2.2.2.2⟩

/-- C7: the relevance predicate fails closed on absent, empty or
too-short text, and otherwise returns true exactly when the summed
mention count — whole-word or cashtag ticker matches plus whole-word
company-name matches, the latter counted only for names longer than two
characters — reaches the minimum-mentions threshold. -/
theorem C7_relevance (ticker company t : String) (minLen minMentions : ℕ) :
    is_article_relevant none ticker company minLen minMentions = false ∧
    (t = "" ∨ t.length < minLen →
      is_article_relevant (some t) ticker company minLen minMentions = false) ∧
    (t ≠ "" → minLen ≤ t.length →
      (is_article_relevant (some t) ticker company minLen minMentions = true ↔
        minMentions ≤ mentionCount t ticker company)) := by
  refine ⟨rfl, ?_, ?_⟩
  · intro h
    simp only [is_article_relevant]
    rw [if_pos h]
  · intro h1 h2
    have hcond : ¬(t = "" ∨ t.length < minLen) := by
      push_neg
      exact ⟨h1, h2⟩
    simp only [is_article_relevant]
    rw [if_neg hcond]
    simp

/-- Concrete instance of C7 on an explicit text with two ticker
mentions. -/
theorem C7_relevance_witness :
    is_article_relevant (some "AAPL twice AAPL here we go long enough")
        "AAPL" "Apple" 10 2 = true ↔
      2 ≤ mentionCount "AAPL twice AAPL here we go long enough" "AAPL" "Apple" :=
  (C7_relevance "AAPL" "Apple" _ 10 2).2.2 (by decide) (by decide)

/-- C8: code-bug evidence — on a single analyzed item of score 0.2, the
backend justification selector returns two points, a positive one and a
neutral one, both built from that same underlying item: its duplicate
guard compares the item dict against a list of headline strings, so it
never fires. -/
theorem C8_duplicate_source_item :
    extract_validation_points [sampleItem (1/5) none] =
      [mkPoint "positive" (sampleItem (1/5) none),
       mkPoint "neutral" (sampleItem (1/5) none)] ∧
    (extract_validation_points [sampleItem (1/5) none]).map
        (fun p => p.headline) = ["H", "H"] := by
  have h : extract_validation_points [sampleItem (1/5) none] =
      [mkPoint "positive" (sampleItem (1/5) none),
       mkPoint "neutral" (sampleItem (1/5) none)] := by
    norm_num [extract_validation_points, sortScoreDesc, insertScoreDesc,
      minByAbsScore, sampleItem]
  refine ⟨h, ?_⟩
  rw [h]
  rfl

/-- C9 counterexample: the same item list aggregated at two different
clock instants yields different results; since the Python function reads
the instant from `datetime.now(timezone.utc)` inside its body instead of
taking it as a parameter, the result is not a function of the explicit
call arguments alone. -/
theorem C9_counterexample :
    calculate_final_sentiment_score 0 72 (3/20)
        [sampleItem 1 (some (some 0)), sampleItem 0 none] ≠
      calculate_final_sentiment_score 72 72 (3/20)
        [sampleItem 1 (some (some 0)), sampleItem 0 none] := by
  have hB : ∀ now : ℚ, itemWeight now 72 (3/20) (sampleItem 0 none) = 1/10 := by
    intro now
    simp [itemWeight, recencyWeight, intensityWeight, sampleItem]
    norm_num
  have hA0 : itemWeight 0 72 (3/20) (sampleItem 1 (some (some 0))) = 23/20 := by
    simp [itemWeight, recencyWeight, intensityWeight, sampleItem]
    push_cast
    norm_num [Real.exp_zero]
  have hA72 : itemWeight 72 72 (3/20) (sampleItem 1 (some (some 0))) = 23/40 := by
    simp only [itemWeight, recencyWeight, intensityWeight, sampleItem]
    have harg : -(Real.log 2) * ((max 0 ((72 : ℚ) - 0) : ℚ) : ℝ) / ((72 : ℚ) : ℝ) =
        -(Real.log 2) := by
      push_cast
      norm_num
      ring_nf
    rw [harg, Real.exp_neg, Real.exp_log (by norm_num : (0 : ℝ) < 2)]
    push_cast
    norm_num
  have hT0 : totalWeight 0 72 (3/20)
      [sampleItem 1 (some (some 0)), sampleItem 0 none] = 5/4 := by
    simp [totalWeight, hA0, hB]
    norm_num
  have hS0 : totalWeightedScore 0 72 (3/20)
      [sampleItem 1 (some (some 0)), sampleItem 0 none] = 23/20 := by
    simp only [totalWeightedScore, List.map_cons, List.map_nil, List.sum_cons,
      List.sum_nil, hA0, hB]
    simp [sampleItem]
  have hT72 : totalWeight 72 72 (3/20)
      [sampleItem 1 (some (some 0)), sampleItem 0 none] = 27/40 := by
    simp [totalWeight, hA72, hB]
    norm_num
  have hS72 : totalWeightedScore 72 72 (3/20)
      [sampleItem 1 (some (some 0)), sampleItem 0 none] = 23/40 := by
    simp only [totalWeightedScore, List.map_cons, List.map_nil, List.sum_cons,
      List.sum_nil, hA72, hB]
    simp [sampleItem]
  have e0 : calculate_final_sentiment_score 0 72 (3/20)
      [sampleItem 1 (some (some 0)), sampleItem 0 none] = 23/25 := by
    unfold calculate_final_sentiment_score
    rw [if_neg (by simp), if_neg (by rw [hT0]; norm_num), hS0, hT0]
    norm_num
  have e72 : calculate_final_sentiment_score 72 72 (3/20)
      [sampleItem 1 (some (some 0)), sampleItem 0 none] = 23/27 := by
    unfold calculate_final_sentiment_score
    rw [if_neg (by simp), if_neg (by rw [hT72]; norm_num), hS72, hT72]
    norm_num
  rw [e0, e72]
  norm_num

/-- C9 (amended): at a fixed aggregation instant the result is a
deterministic function of the multiset of analyzed items — it is
invariant under permutation of the item list — for both aggregator
versions; the instant itself, however, is read from the ambient clock
inside the function body, not passed in by the caller. -/
theorem C9_determinism (now halfLife boost : ℚ) (l₁ l₂ : List AnalyzedItem)
    (h : l₁.Perm l₂) :
    calculate_final_sentiment_score now halfLife boost l₁ =
      calculate_final_sentiment_score now halfLife boost l₂ ∧
    calculate_weighted_sentiment now halfLife boost l₁ =
      calculate_weighted_sentiment now halfLife boost l₂ := by
  have hW : totalWeight now halfLife boost l₁ = totalWeight now halfLife boost l₂ :=
    ((h.map (fun it => itemWeight now halfLife boost it)).sum_eq)
  have hS : totalWeightedScore now halfLife boost l₁ =
      totalWeightedScore now halfLife boost l₂ :=
    ((h.map (fun it => (it.score : ℝ) * itemWeight now halfLife boost it)).sum_eq)
  have hsum : (l₁.map (fun it => (it.score : ℝ))).sum =
      (l₂.map (fun it => (it.score : ℝ))).sum :=
    ((h.map (fun it => (it.score : ℝ))).sum_eq)
  have hlen : l₁.length = l₂.length := h.length_eq
  by_cases hn : l₁ = []
  · have hn2 : l₂ = [] := by
      subst hn
      exact h.symm.eq_nil
    rw [hn, hn2]
    exact ⟨rfl, rfl⟩
  · have hn2 : l₂ ≠ [] := by
      intro e
      exact hn ((h.trans (e ▸ List.Perm.refl l₂)).eq_nil)
    constructor
    · unfold calculate_final_sentiment_score
      rw [if_neg hn, if_neg hn2, hW, hS]
    · unfold calculate_weighted_sentiment
      rw [if_neg hn, if_neg hn2, hW, hS, hsum, hlen]

/-- Concrete instance of C9 (amended) on an explicit swapped pair of
items. -/
theorem C9_determinism_witness :
    calculate_final_sentiment_score 0 24 (1/5)
        [sampleItem (1/2) none, sampleItem (-1/3) (some none)] =
      calculate_final_sentiment_score 0 24 (1/5)
        [sampleItem (-1/3) (some none), sampleItem (1/2) none] ∧
    calculate_weighted_sentiment 0 24 (1/5)
        [sampleItem (1/2) none, sampleItem (-1/3) (some none)] =
      calculate_weighted_sentiment 0 24 (1/5)
        [sampleItem (-1/3) (some none), sampleItem (1/2) none] :=
  C9_determinism 0 24 (1/5) _ _ (List.Perm.swap _ _ _)

/-- Random access into a zipped list combines the two accesses. -/
theorem getElem?_zipWith_eq {α β γ : Type} (f : α → β → γ) (l₁ : List α)
    (l₂ : List β) (k : ℕ) :
    (List.zipWith f l₁ l₂)[k]? = Option.map₂ f l₁[k]? l₂[k]? := by
  induction l₁ generalizing l₂ k with
  | nil => simp [Option.map₂]
  | cons a l ih =>
      cases l₂ with
      | nil => simp [Option.map₂]
      | cons b m =>
          cases k with
          | zero => simp [Option.map₂]
          | succ n => simpa using ih m n

/-- Under the parallel-results assumption the analysis output is the
pointwise zip of the results with the usable items. -/
theorem analyze_eq_zipWith (content : List ContentItem)
    (results : List SentimentResult)
    (h : results.length = (selectUsable content).length) :
    analyze_content_sentiment content results =
      List.zipWith (fun r it => mkAnalyzedItem it r) results (selectUsable content) := by
  unfold analyze_content_sentiment
  by_cases h1 : content = []
  · subst h1
    have : results = [] := by
      simpa [selectUsable] using List.length_eq_zero.mp (by simpa [selectUsable] using h)
    subst this
    simp
  · rw [if_neg h1]
    by_cases h2 : selectUsable content = []
    · rw [if_pos h2, h2]
      simp
    · rw [if_neg h2]
      have h3 : ¬ (selectUsable content).length < results.length := by omega
      rw [if_neg h3]

/-- C10: with a classifier result list parallel to the usable items, the
k-th analyzed item is built from the k-th usable input item, and the
usable items are exactly the input batch, in order, with textless items
removed. -/
theorem C10_order_preserved (content : List ContentItem)
    (results : List SentimentResult)
    (h : results.length = (selectUsable content).length) :
    selectUsable content = content.filter (fun it => truthy (select_text it)) ∧
    ∀ k : ℕ, (analyze_content_sentiment content results)[k]? =
      Option.map₂ (fun r it => mkAnalyzedItem it r) results[k]?
        (selectUsable content)[k]? := by
  refine ⟨selectUsable_eq_filter content, fun k => ?_⟩
  rw [analyze_eq_zipWith content results h, getElem?_zipWith_eq]

/-- Concrete instance of C10 at index 1 of an explicit batch. -/
theorem C10_order_preserved_witness :
    (analyze_content_sentiment sampleBatch sampleResults)[1]? =
      Option.map₂ (fun r it => mkAnalyzedItem it r) sampleResults[1]?
        (selectUsable sampleBatch)[1]? :=
  (C10_order_preserved sampleBatch sampleResults (by decide)).2 1

end StockSentiment
